import Mathlib

/-!
Shallow embedding of `python/ffmpegwrapper.py` from tk-framework-ffmpegtools.

The wrapper class builds argument vectors for two external executables
(ffmpeg / ffprobe), spawns them, and parses their output.  We embed the
pure logic directly and abstract the ambient effects:

* the filesystem existence check (`os.path.exists`) becomes a predicate
  carried by a `World`;
* process launching (`subprocess.run` / `subprocess.Popen`) becomes an
  oracle `World.run : List String → Except String ProcResult`; a `.error`
  models a launch-level exception (executable missing, spawn failure),
  a `.ok` models a completed child carrying its exit status and captured
  output;
* `json.loads` on probe output becomes an oracle
  `World.decode : String → Option ProbeDoc` returning the parsed document
  or `none` for a JSON decode error;
* every operation returns, next to its result, the list of argument
  vectors whose launch it attempted, so that "no process is launched"
  is expressible.

Python string primitives used by the code (`str.split`, `str.strip`,
`str.startswith`, `int()`, `float()`, `round(x, 2)`) are embedded as
structurally recursive functions over `List Char` below.
-/

namespace FFmpegTools

/-! ### Python string primitives -/

/-- Python whitespace as used by `str.strip()` / `str.split()`. -/
def isPySpace (c : Char) : Bool :=
  c = ' ' || c = '\t' || c = '\n' || c = '\r' || c = '\x0b' || c = '\x0c'

/-- Python `s.split(sep)` for a one-character separator: keeps empty pieces. -/
def splitOnChar (sep : Char) : List Char → List (List Char)
  | [] => [[]]
  | c :: cs =>
    let r := splitOnChar sep cs
    if c = sep then [] :: r
    else
      match r with
      | [] => [[c]]
      | piece :: rest => (c :: piece) :: rest

/-- Helper for Python `s.split()` (no argument): accumulates the current token. -/
def pySplitWsAux : List Char → List Char → List (List Char)
  | [], acc => if acc.isEmpty then [] else [acc.reverse]
  | c :: cs, acc =>
    if isPySpace c then
      if acc.isEmpty then pySplitWsAux cs []
      else acc.reverse :: pySplitWsAux cs []
    else pySplitWsAux cs (c :: acc)

/-- Python `s.split()`: split on runs of whitespace, dropping empty tokens. -/
def pySplitWs (l : List Char) : List (List Char) :=
  pySplitWsAux l []

/-- Python `s.strip()`: remove leading and trailing whitespace. -/
def pyStrip (l : List Char) : List Char :=
  ((l.dropWhile isPySpace).reverse.dropWhile isPySpace).reverse

/-- Value of a nonempty all-digit character list, else `none`. -/
def digitsToNat? (l : List Char) : Option Nat :=
  if l.isEmpty then none
  else if l.all Char.isDigit then
    some (l.foldl (fun a c => a * 10 + (c.toNat - 48)) 0)
  else none

/-- Python `int(s)` on the integer literals the wrapper feeds it
(optional leading minus sign, then digits). -/
def pyIntChars? : List Char → Option Int
  | [] => none
  | c :: rest =>
    if c = '-' then Option.map (fun n : ℕ => -(n : ℤ)) (digitsToNat? rest)
    else Option.map (fun n : ℕ => (n : ℤ)) (digitsToNat? (c :: rest))

/-- Nonnegative part of Python `float(s)` on decimal literals with digits on
both sides of an optional point; the wrapper only feeds it the integer
components of a probe frame-rate field. -/
def pyFloatPos? (l : List Char) : Option ℚ :=
  match splitOnChar '.' l with
  | [ip] => Option.map (fun n : ℕ => (n : ℚ)) (digitsToNat? ip)
  | [ip, fp] =>
    match digitsToNat? ip, digitsToNat? fp with
    | some i, some f => some ((i : ℚ) + (f : ℚ) / (10 : ℚ) ^ fp.length)
    | _, _ => none
  | _ => none

/-- Python `float(s)` restricted as in `pyFloatPos?`. -/
def pyFloatChars? : List Char → Option ℚ
  | [] => none
  | c :: rest =>
    if c = '-' then (pyFloatPos? rest).map fun q => -q
    else pyFloatPos? (c :: rest)

def pyInt? (s : String) : Option Int := pyIntChars? s.data

def pyFloat? (s : String) : Option ℚ := pyFloatChars? s.data

/-- Python `round` to the nearest integer, ties to even (banker's rounding). -/
def roundHalfEven (q : ℚ) : ℤ :=
  let f := ⌊q⌋
  if q - f < 1 / 2 then f
  else if (1 : ℚ) / 2 < q - f then f + 1
  else if f % 2 = 0 then f else f + 1

/-- Python `round(q, 2)`. -/
def pyRound2 (q : ℚ) : ℚ :=
  (roundHalfEven (q * 100) : ℚ) / 100

/-! ### Data model -/

/-- Completed child process: exit status and captured output, the shape shared
by `subprocess.run` results and the ad hoc `ProcessResult` of the progress
path. -/
structure ProcResult where
  returncode : Int
  stdout : String
  stderr : String
deriving DecidableEq

/-- The Python exceptions the wrapper raises or propagates. -/
inductive PyErr where
  | valueError (msg : String)
  | launchError (msg : String)
  | calledProcessError (returncode : Int)
  | jsonDecodeError (msg : String)
deriving DecidableEq

/-- One entry of the `streams` list of a parsed ffprobe JSON document; a
field is `none` when the key is absent. -/
structure ProbeStream where
  codec_type : Option String
  width : Option Int
  height : Option Int
  codec_name : Option String
  r_frame_rate : Option String
deriving DecidableEq

/-- The `format` object of a parsed ffprobe JSON document.  The numeric
conversions `float(...)`/`int(...)` applied by `get_video_info` are folded
into the field types; conversion failures are outside the claims. -/
structure ProbeFormat where
  duration : Option ℚ
  bit_rate : Option Int
  size : Option Int
deriving DecidableEq

/-- A parsed ffprobe JSON document (`json.loads(result.stdout)`); a missing
`format` key is `none`, a missing `streams` key is the empty list. -/
structure ProbeDoc where
  format : Option ProbeFormat
  streams : List ProbeStream
deriving DecidableEq

/-- The dictionary assembled by `get_video_info`. -/
structure VideoInfo where
  duration : ℚ
  width : Option Int
  height : Option Int
  fps : Option ℚ
  video_codec : Option String
  audio_codec : Option String
  bitrate : Int
  file_size : Int
deriving DecidableEq

/-- The initial `info` dictionary of `get_video_info`. -/
def initInfo : VideoInfo :=
  { duration := 0, width := none, height := none, fps := none,
    video_codec := none, audio_codec := none, bitrate := 0, file_size := 0 }

/-- The dictionary returned by `get_media_formats`; names kept as raw
character lists. -/
structure FormatCatalog where
  encoders : List (List Char)
  decoders : List (List Char)
deriving DecidableEq

/-- Ambient effects: filesystem existence, process launching, JSON decoding.
`run` returning `.error` models a launch-level exception; `decode` returning
`none` models a `json.JSONDecodeError`. -/
structure World where
  pathExists : String → Bool
  run : List String → Except String ProcResult
  decode : String → Option ProbeDoc

/-! ### Executors

Each executor returns its result next to the list of argument vectors whose
launch it attempted, so that claims about "no process launched" are
expressible.  The executable paths resolved at construction time and the
`_max_threads` attribute are passed as parameters. -/

/-- The `cmd.extend(["-threads", str(self._max_threads)])` step, guarded by
`self._max_threads > 0`. -/
def threadFlags (maxThreads : Int) : List String :=
  if maxThreads > 0 then ["-threads", toString maxThreads] else []

/-- `subprocess.run(cmd, **kwargs)` with an optional `check=True` kwarg:
with `check` set, a non-zero exit status raises `CalledProcessError`. -/
def subprocess_run (w : World) (cmd : List String) (check : Bool) :
    Except PyErr ProcResult :=
  match w.run cmd with
  | .error msg => .error (.launchError msg)
  | .ok r => if check ∧ r.returncode ≠ 0 then .error (.calledProcessError r.returncode) else .ok r

/-- `execute_ffmpeg_command`: prepend the executable, append the thread
flags, run.  A non-zero exit status is only logged (the result is returned);
an exception from the launch is logged and re-raised. -/
def execute_ffmpeg_command (w : World) (ffmpegPath : String) (maxThreads : Int)
    (args : List String) (check : Bool) :
    Except PyErr ProcResult × List (List String) :=
  let cmd := ffmpegPath :: args ++ threadFlags maxThreads
  (subprocess_run w cmd check, [cmd])

/-- `execute_ffmpeg_with_progress`: same command plus the fixed
`-progress pipe:2` pair; the monitoring thread and polling loop do not
change the returned value, which carries the child's exit status and the
drained output. -/
def execute_ffmpeg_with_progress (w : World) (ffmpegPath : String) (maxThreads : Int)
    (args : List String) :
    Except PyErr ProcResult × List (List String) :=
  let cmd := ffmpegPath :: args ++ threadFlags maxThreads ++ ["-progress", "pipe:2"]
  (subprocess_run w cmd false, [cmd])

/-- `execute_ffprobe_command`: like the ffmpeg executor but with no thread
flags. -/
def execute_ffprobe_command (w : World) (ffprobePath : String)
    (args : List String) (check : Bool) :
    Except PyErr ProcResult × List (List String) :=
  let cmd := ffprobePath :: args
  (subprocess_run w cmd check, [cmd])

/-! ### get_video_info -/

/-- One iteration of the stream loop in `get_video_info` (lines 255-269):
a video stream overwrites width, height and codec name, then recomputes fps
from `r_frame_rate` (default `"0/1"`) when the field contains a slash and
the denominator parses to a non-zero integer; an audio stream overwrites
the audio codec name.  `.error` models the exceptions Python would raise
while unpacking or converting the rational string. -/
def update_stream_info (info : VideoInfo) (s : ProbeStream) : Except PyErr VideoInfo :=
  if s.codec_type = some "video" then
    let info := { info with width := s.width, height := s.height,
                            video_codec := s.codec_name }
    let fps_str := s.r_frame_rate.getD "0/1"
    if fps_str.data.contains '/' then
      match splitOnChar '/' fps_str.data with
      | [numS, denS] =>
        match pyIntChars? denS with
        | none => .error (.valueError "invalid literal for int()")
        | some d =>
          if d ≠ 0 then
            match pyFloatChars? numS, pyFloatChars? denS with
            | some n, some dq => .ok { info with fps := some (pyRound2 (n / dq)) }
            | _, _ => .error (.valueError "could not convert string to float")
          else .ok info
      | _ => .error (.valueError "not enough values to unpack")
    else .ok info
  else if s.codec_type = some "audio" then
    .ok { info with audio_codec := s.codec_name }
  else .ok info

/-- The stream loop of `get_video_info` over the whole stream list. -/
def scan_streams (info : VideoInfo) : List ProbeStream → Except PyErr VideoInfo
  | [] => .ok info
  | s :: rest =>
    match update_stream_info info s with
    | .error e => .error e
    | .ok info2 => scan_streams info2 rest

/-- The `info` dictionary after the `format` section of `get_video_info`. -/
def formatInfo (doc : ProbeDoc) : VideoInfo :=
  match doc.format with
  | none => initInfo
  | some f =>
    { initInfo with duration := f.duration.getD 0, bitrate := f.bit_rate.getD 0,
                    file_size := f.size.getD 0 }

/-- The fixed ffprobe argument list of `get_video_info`. -/
def videoInfoArgs (video_path : String) : List String :=
  ["-v", "quiet", "-print_format", "json", "-show_format", "-show_streams", video_path]

/-- `get_video_info`: existence check, ffprobe run with `check=True`,
JSON decode, format section, stream loop. -/
def get_video_info (w : World) (ffprobePath : String) (video_path : String) :
    Except PyErr VideoInfo × List (List String) :=
  if w.pathExists video_path then
    match execute_ffprobe_command w ffprobePath (videoInfoArgs video_path) true with
    | (.error e, t) => (.error e, t)
    | (.ok r, t) =>
      match w.decode r.stdout with
      | none => (.error (.jsonDecodeError r.stdout), t)
      | some doc =>
        match scan_streams (formatInfo doc) doc.streams with
        | .error e => (.error e, t)
        | .ok info => (.ok info, t)
  else (.error (.valueError ("Video file does not exist: " ++ video_path)), [])

/-! ### get_stream_info, validate_media_file -/

/-- `get_stream_info`: existence check, optional `-select_streams` filter
from the first character of the stream type, ffprobe with `check=True`,
JSON decode, raw stream list. -/
def get_stream_info (w : World) (ffprobePath : String) (media_path : String)
    (stream_type : Option String) :
    Except PyErr (List ProbeStream) × List (List String) :=
  if w.pathExists media_path then
    let base := ["-v", "quiet", "-print_format", "json", "-show_streams"]
    let args := (match stream_type with
      | some st => if st.data.isEmpty then base
                   else base ++ ["-select_streams", String.mk (st.data.take 1)]
      | none => base) ++ [media_path]
    match execute_ffprobe_command w ffprobePath args true with
    | (.error e, t) => (.error e, t)
    | (.ok r, t) =>
      match w.decode r.stdout with
      | none => (.error (.jsonDecodeError r.stdout), t)
      | some doc => (.ok doc.streams, t)
  else (.error (.valueError ("Media file does not exist: " ++ media_path)), [])

/-- `validate_media_file`: no existence check; runs ffprobe and reports
whether the exit status is zero; any exception yields `false`. -/
def validate_media_file (w : World) (ffprobePath : String) (media_path : String) :
    Bool × List (List String) :=
  let args := ["-v", "error", "-show_entries", "format=duration", "-of", "csv=p=0",
               media_path]
  match execute_ffprobe_command w ffprobePath args false with
  | (.ok r, t) => (r.returncode == 0, t)
  | (.error _, t) => (false, t)

/-! ### extract_frames, create_thumbnail -/

/-- `extract_frames`: no existence check; optional `-ss`, `-t` and
`-vf fps=...` flags around the input, then `-y` and the output pattern.
The numeric parameters appear here after Python's `str(...)`. -/
def extract_frames (w : World) (ffmpegPath : String) (maxThreads : Int)
    (video_path output_pattern : String)
    (start_time duration fps : Option String) :
    Except PyErr ProcResult × List (List String) :=
  let args :=
    (match start_time with | some s => ["-ss", s] | none => [])
    ++ ["-i", video_path]
    ++ (match duration with | some d => ["-t", d] | none => [])
    ++ (match fps with | some f => ["-vf", "fps=" ++ f] | none => [])
    ++ ["-y", output_pattern]
  execute_ffmpeg_command w ffmpegPath maxThreads args false

/-- `create_thumbnail`: no existence check; fixed single-frame argument
list. -/
def create_thumbnail (w : World) (ffmpegPath : String) (maxThreads : Int)
    (video_path output_path time_offset : String) :
    Except PyErr ProcResult × List (List String) :=
  execute_ffmpeg_command w ffmpegPath maxThreads
    ["-i", video_path, "-ss", time_offset, "-vframes", "1", "-y", output_path] false

/-! ### convert_video -/

/-- The `try: self._framework.settings.get(key, fixed) except (AttributeError,
KeyError): fixed` pattern of `convert_video`.  A settings provider is an
optional key-value mapping; `none` models the absent provider
(`AttributeError`/`KeyError` path), and a present mapping answers
`.get(key, fixed)`, i.e. the fixed default when the key is missing. -/
def settings_codec (settings : Option (String → Option String))
    (key fixed : String) : String :=
  match settings with
  | none => fixed
  | some f => (f key).getD fixed

/-- The `for key, value in options.items()` loop of `convert_video`:
a `-key value` pair for every option whose value is not `None`, in mapping
iteration (insertion) order. -/
def option_flags : List (String × Option String) → List String
  | [] => []
  | (k, some v) :: rest => ("-" ++ k) :: v :: option_flags rest
  | (_, none) :: rest => option_flags rest

/-- The `if vcodec: args.extend([flag, vcodec])` pattern: a flag pair for
a truthy (non-`None`, nonempty) codec value. -/
def codec_flags (flag : String) (c : Option String) : List String :=
  match c with
  | some v => if v = "" then [] else [flag, v]
  | none => []

/-- The argument vector built by `convert_video` once the codec defaults are
resolved.  `vcodec`/`acodec` being `none` models the keyword not passed
(`options.pop` returns the resolved default); `some c` models an explicit
per-call override, itself possibly `None`. -/
def convert_video_args (defVcodec defAcodec : String)
    (vcodec acodec : Option (Option String))
    (options : List (String × Option String))
    (input_path output_path : String) : List String :=
  let vc : Option String := match vcodec with | none => some defVcodec | some c => c
  let ac : Option String := match acodec with | none => some defAcodec | some c => c
  ["-i", input_path]
    ++ codec_flags "-vcodec" vc
    ++ codec_flags "-acodec" ac
    ++ option_flags options
    ++ ["-y", output_path]

/-- `convert_video`: existence check on the input, codec resolution from
override / settings lookup / fixed defaults `"libx264"` and `"aac"`, argument
build, then the progress executor when a callback was supplied, else the
synchronous executor.  The `os.makedirs` side effect on the output directory
is not tracked. -/
def convert_video (w : World) (ffmpegPath : String) (maxThreads : Int)
    (settings : Option (String → Option String))
    (input_path output_path : String) (progress : Bool)
    (vcodec acodec : Option (Option String))
    (options : List (String × Option String)) :
    Except PyErr ProcResult × List (List String) :=
  if w.pathExists input_path then
    let defVcodec := settings_codec settings "default_video_codec" "libx264"
    let defAcodec := settings_codec settings "default_audio_codec" "aac"
    let args := convert_video_args defVcodec defAcodec vcodec acodec options
                  input_path output_path
    if progress then execute_ffmpeg_with_progress w ffmpegPath maxThreads args
    else execute_ffmpeg_command w ffmpegPath maxThreads args false
  else (.error (.valueError ("Input file does not exist: " ++ input_path)), [])

/-! ### create_proxy -/

/-- The `resolution_map` dictionary lookup with pass-through default. -/
def resolution_map (resolution : String) : String :=
  if resolution = "720p" then "1280x720"
  else if resolution = "1080p" then "1920x1080"
  else if resolution = "480p" then "854x480"
  else resolution

/-- One entry of the `quality_map` dictionary. -/
structure QualitySettings where
  crf : String
  quality_preset : String
deriving DecidableEq

/-- The `quality_map` dictionary lookup, falling back to the `medium`
entry. -/
def quality_map (quality : String) : QualitySettings :=
  if quality = "fast" then { crf := "28", quality_preset := "fast" }
  else if quality = "medium" then { crf := "23", quality_preset := "medium" }
  else if quality = "slow" then { crf := "18", quality_preset := "slow" }
  else { crf := "23", quality_preset := "medium" }

/-- `create_proxy`: maps resolution and quality tags, then delegates to
`convert_video` with `vf`/`crf`/`preset` keyword options and no progress
callback. -/
def create_proxy (w : World) (ffmpegPath : String) (maxThreads : Int)
    (settings : Option (String → Option String))
    (input_path output_path resolution quality : String) :
    Except PyErr ProcResult × List (List String) :=
  let target_res := resolution_map resolution
  let s := quality_map quality
  convert_video w ffmpegPath maxThreads settings input_path output_path false
    none none
    [("vf", some ("scale=" ++ target_res)), ("crf", some s.crf),
     ("preset", some s.quality_preset)]

/-! ### get_media_formats -/

/-- True for a line whose stripped form starts with six dashes, the
separator test of `get_media_formats`. -/
def sepLine (l : List Char) : Bool :=
  "------".data.isPrefixOf (pyStrip l)

/-- The per-section parsing loop of `get_media_formats` (lines 350-358):
a dashes line turns the section flag on; afterwards every non-blank line
with at least two whitespace-delimited tokens contributes its second
token. -/
def parseCatalogAux : List (List Char) → Bool → List (List Char)
  | [], _ => []
  | line :: rest, inSection =>
    if sepLine line then parseCatalogAux rest true
    else if inSection && !(pyStrip line).isEmpty then
      match pySplitWs line with
      | _ :: second :: _ => second :: parseCatalogAux rest inSection
      | _ => parseCatalogAux rest inSection
    else parseCatalogAux rest inSection

/-- The catalog parser applied to an executable listing text. -/
def parseCatalog (lines : List (List Char)) : List (List Char) :=
  parseCatalogAux lines false

/-- `get_media_formats`: runs `-encoders` and `-decoders`, parses each
listing when the exit status is zero; an exception aborts the remainder and
the partial catalog is returned (the surrounding `try` swallows it). -/
def get_media_formats (w : World) (ffmpegPath : String) (maxThreads : Int) :
    FormatCatalog :=
  match execute_ffmpeg_command w ffmpegPath maxThreads ["-encoders"] false with
  | (.error _, _) => { encoders := [], decoders := [] }
  | (.ok r1, _) =>
    let enc := if r1.returncode = 0 then parseCatalog (splitOnChar '\n' r1.stdout.data)
               else []
    match execute_ffmpeg_command w ffmpegPath maxThreads ["-decoders"] false with
    | (.error _, _) => { encoders := enc, decoders := [] }
    | (.ok r2, _) =>
      { encoders := enc,
        decoders := if r2.returncode = 0 then
                      parseCatalog (splitOnChar '\n' r2.stdout.data)
                    else [] }

/-! ### Concrete inputs used by counterexamples and witnesses -/

/-- A first video stream (frame-rate field without a slash, so the fps
computation is skipped for it). -/
def cexVideoA : ProbeStream :=
  { codec_type := some "video", width := some 1920, height := some 1080,
    codec_name := some "h264", r_frame_rate := some "24" }

/-- A second, different video stream. -/
def cexVideoB : ProbeStream :=
  { codec_type := some "video", width := some 1280, height := some 720,
    codec_name := some "mpeg4", r_frame_rate := some "25" }

/-- A first audio stream. -/
def cexAudioA : ProbeStream :=
  { codec_type := some "audio", width := none, height := none,
    codec_name := some "aac", r_frame_rate := none }

/-- A second, different audio stream. -/
def cexAudioB : ProbeStream :=
  { codec_type := some "audio", width := none, height := none,
    codec_name := some "mp3", r_frame_rate := none }

/-- A probe document with two video and two audio streams. -/
def cexDoc : ProbeDoc :=
  { format := none, streams := [cexVideoA, cexAudioA, cexVideoB, cexAudioB] }

/-- A world where every path exists, every launch succeeds with status 0,
and every probe output decodes to `cexDoc`. -/
def cexWorld : World :=
  { pathExists := fun _ => true,
    run := fun _ => .ok { returncode := 0, stdout := "probe-json", stderr := "" },
    decode := fun _ => some cexDoc }

/-- A world where no path exists; launches would succeed with status 1. -/
def noFileWorld : World :=
  { pathExists := fun _ => false,
    run := fun _ => .ok { returncode := 1, stdout := "", stderr := "boom" },
    decode := fun _ => none }

/-- A world whose children exit with status 2 and diagnostic text. -/
def status2World : World :=
  { pathExists := fun _ => true,
    run := fun _ => .ok { returncode := 2, stdout := "", stderr := "diag" },
    decode := fun _ => none }

/-- A world where every launch fails at spawn time. -/
def spawnFailWorld : World :=
  { pathExists := fun _ => true,
    run := fun _ => .error "No such file or directory",
    decode := fun _ => none }

/-- A video stream with the NTSC rational frame rate. -/
def ntscStream : ProbeStream :=
  { codec_type := some "video", width := some 1920, height := some 1080,
    codec_name := some "h264", r_frame_rate := some "30000/1001" }

/-- A video stream with a zero frame-rate denominator. -/
def zeroDenStream : ProbeStream :=
  { codec_type := some "video", width := some 640, height := some 480,
    codec_name := some "h264", r_frame_rate := some "24/0" }

/-- A small encoder listing in the external tool's tabular format. -/
def listingText : String :=
  "Encoders:\n V..... = Video\n ------\n V..... libx264 H.264\n A..... aac AAC\n"

/-- A world whose children exit with status 0 and the listing above on
standard output. -/
def catalogWorld : World :=
  { pathExists := fun _ => true,
    run := fun _ => .ok { returncode := 0, stdout := listingText, stderr := "" },
    decode := fun _ => none }

/-- The second whitespace-delimited token of a line (empty when there is
none), the value the catalog parser extracts per line. -/
def secondToken (l : List Char) : List Char :=
  match pySplitWs l with
  | _ :: t :: _ => t
  | _ => []

/-- The dictionary `get_video_info` builds for `cexDoc`. -/
def cexResult : VideoInfo :=
  { duration := 0, width := some 1280, height := some 720, fps := none,
    video_codec := some "mpeg4", audio_codec := some "mp3",
    bitrate := 0, file_size := 0 }

/-- A settings provider carrying both codec keys. -/
def cexSettings (key : String) : Option String :=
  if key = "default_video_codec" then some "libx265"
  else if key = "default_audio_codec" then some "opus"
  else none

/-! ### Helper lemmas on the string primitives -/

theorem splitOnChar_of_not_mem (c : Char) (l : List Char) (h : c ∉ l) :
    splitOnChar c l = [l] := by
  induction l with
  | nil => rfl
  | cons x xs ih =>
    have hx : ¬x = c := by rintro rfl; exact h (List.mem_cons_self _ _)
    have hxs : c ∉ xs := fun hm => h (List.mem_cons_of_mem _ hm)
    simp [splitOnChar, hx, ih hxs]

theorem splitOnChar_append (c : Char) (l1 l2 : List Char) (h : c ∉ l1) :
    splitOnChar c (l1 ++ c :: l2) = l1 :: splitOnChar c l2 := by
  induction l1 with
  | nil => simp [splitOnChar]
  | cons x xs ih =>
    have hx : ¬x = c := by rintro rfl; exact h (List.mem_cons_self _ _)
    have hxs : c ∉ xs := fun hm => h (List.mem_cons_of_mem _ hm)
    simp [splitOnChar, hx, ih hxs]

theorem digitsToNat?_no_dot {l : List Char} {m : Nat}
    (h : digitsToNat? l = some m) : ('.' : Char) ∉ l := by
  intro hm
  unfold digitsToNat? at h
  split at h
  · exact absurd h (by simp)
  · split at h
    · rename_i hall
      have hd := List.all_eq_true.mp hall _ hm
      exact absurd hd (by decide)
    · exact absurd h (by simp)

theorem pyFloatPos?_of_digits {l : List Char} {m : Nat}
    (h : digitsToNat? l = some m) : pyFloatPos? l = some (m : ℚ) := by
  unfold pyFloatPos?
  rw [splitOnChar_of_not_mem _ _ (digitsToNat?_no_dot h)]
  simp [h]

theorem pyFloatChars?_of_pyIntChars? {l : List Char} {d : Int}
    (h : pyIntChars? l = some d) : pyFloatChars? l = some (d : ℚ) := by
  cases l with
  | nil => simp [pyIntChars?] at h
  | cons c rest =>
    by_cases hc : c = '-'
    · subst hc
      simp only [pyIntChars?, if_pos rfl] at h
      cases hm : digitsToNat? rest with
      | none => rw [hm] at h; simp at h
      | some m =>
        rw [hm] at h
        have hd : -(m : ℤ) = d := by simpa using h
        simp only [pyFloatChars?, if_pos rfl, pyFloatPos?_of_digits hm,
          Option.map_some']
        rw [← hd]
        push_cast
        ring_nf
    · simp only [pyIntChars?, if_neg hc] at h
      cases hm : digitsToNat? (c :: rest) with
      | none => rw [hm] at h; simp at h
      | some m =>
        rw [hm] at h
        have hd : (m : ℤ) = d := by simpa using h
        simp only [pyFloatChars?, if_neg hc, pyFloatPos?_of_digits hm]
        rw [← hd]
        push_cast
        ring_nf

/-! ### Helper lemmas on the stream loop -/

theorem update_video_fields {info i : VideoInfo} {s : ProbeStream}
    (hv : s.codec_type = some "video")
    (h : update_stream_info info s = .ok i) :
    i.width = s.width ∧ i.height = s.height ∧ i.video_codec = s.codec_name ∧
    i.audio_codec = info.audio_codec := by
  unfold update_stream_info at h
  rw [if_pos hv] at h
  simp only at h
  repeat' split at h
  all_goals first
    | (injection h with h; subst h; exact ⟨rfl, rfl, rfl, rfl⟩)
    | simp at h

theorem update_nonvideo_fields {info i : VideoInfo} {s : ProbeStream}
    (hv : ¬s.codec_type = some "video")
    (h : update_stream_info info s = .ok i) :
    i.width = info.width ∧ i.height = info.height ∧
    i.video_codec = info.video_codec ∧ i.fps = info.fps := by
  unfold update_stream_info at h
  rw [if_neg hv] at h
  split at h
  · injection h with h; subst h; exact ⟨rfl, rfl, rfl, rfl⟩
  · injection h with h; subst h; exact ⟨rfl, rfl, rfl, rfl⟩

theorem update_audio_eq {info i : VideoInfo} {s : ProbeStream}
    (ha : s.codec_type = some "audio")
    (h : update_stream_info info s = .ok i) :
    i = { info with audio_codec := s.codec_name } := by
  have hv : ¬s.codec_type = some "video" := by rw [ha]; simp
  unfold update_stream_info at h
  rw [if_neg hv, if_pos ha] at h
  injection h with h
  exact h.symm

theorem update_nonaudio_audio {info i : VideoInfo} {s : ProbeStream}
    (ha : ¬s.codec_type = some "audio")
    (h : update_stream_info info s = .ok i) :
    i.audio_codec = info.audio_codec := by
  by_cases hv : s.codec_type = some "video"
  · exact (update_video_fields hv h).2.2.2
  · unfold update_stream_info at h
    rw [if_neg hv, if_neg ha] at h
    injection h with h
    subst h
    rfl

theorem scan_streams_ok_append {l1 l2 : List ProbeStream} {info i : VideoInfo}
    (h : scan_streams info (l1 ++ l2) = .ok i) :
    ∃ j, scan_streams info l1 = .ok j ∧ scan_streams j l2 = .ok i := by
  induction l1 generalizing info with
  | nil => exact ⟨info, rfl, h⟩
  | cons s rest ih =>
    rw [List.cons_append] at h
    simp only [scan_streams] at h ⊢
    cases hu : update_stream_info info s with
    | error e => rw [hu] at h; exact absurd h (by simp)
    | ok i2 =>
      rw [hu] at h
      exact ih h

theorem scan_no_video {l : List ProbeStream} {info i : VideoInfo}
    (hl : ∀ s ∈ l, ¬s.codec_type = some "video")
    (h : scan_streams info l = .ok i) :
    i.width = info.width ∧ i.height = info.height ∧
    i.video_codec = info.video_codec ∧ i.fps = info.fps := by
  induction l generalizing info with
  | nil =>
    simp only [scan_streams] at h
    injection h with h
    subst h
    exact ⟨rfl, rfl, rfl, rfl⟩
  | cons s rest ih =>
    simp only [scan_streams] at h
    cases hu : update_stream_info info s with
    | error e => rw [hu] at h; exact absurd h (by simp)
    | ok i2 =>
      rw [hu] at h
      have h1 := update_nonvideo_fields (hl s (List.mem_cons_self _ _)) hu
      have h2 := ih (fun t ht => hl t (List.mem_cons_of_mem _ ht)) h
      exact ⟨h2.1.trans h1.1, h2.2.1.trans h1.2.1,
        h2.2.2.1.trans h1.2.2.1, h2.2.2.2.trans h1.2.2.2⟩

theorem scan_no_audio {l : List ProbeStream} {info i : VideoInfo}
    (hl : ∀ s ∈ l, ¬s.codec_type = some "audio")
    (h : scan_streams info l = .ok i) :
    i.audio_codec = info.audio_codec := by
  induction l generalizing info with
  | nil =>
    simp only [scan_streams] at h
    injection h with h
    subst h
    rfl
  | cons s rest ih =>
    simp only [scan_streams] at h
    cases hu : update_stream_info info s with
    | error e => rw [hu] at h; exact absurd h (by simp)
    | ok i2 =>
      rw [hu] at h
      have h1 := update_nonaudio_audio (hl s (List.mem_cons_self _ _)) hu
      have h2 := ih (fun t ht => hl t (List.mem_cons_of_mem _ ht)) h
      exact h2.trans h1

theorem update_video_fps {info : VideoInfo} {s : ProbeStream} {numS denS : String}
    {n : ℚ} {d : ℤ}
    (hv : s.codec_type = some "video")
    (hr : s.r_frame_rate = some (numS ++ "/" ++ denS))
    (h1 : ('/' : Char) ∉ numS.data) (h2 : ('/' : Char) ∉ denS.data)
    (hn : pyFloat? numS = some n) (hd : pyInt? denS = some d) :
    update_stream_info info s =
      .ok { info with
            width := s.width, height := s.height,
            video_codec := s.codec_name,
            fps := if d = 0 then info.fps else some (pyRound2 (n / (d : ℚ))) } := by
  have hdata : (numS ++ "/" ++ denS).data = numS.data ++ '/' :: denS.data := by
    show (numS.data ++ "/".data) ++ denS.data = _
    simp
  have hd' : pyIntChars? denS.data = some d := hd
  have hn' : pyFloatChars? numS.data = some n := hn
  have hcont : ((numS.data ++ '/' :: denS.data).contains '/') = true := by
    simp [List.contains]
  unfold update_stream_info
  rw [if_pos hv]
  simp only [hr, Option.getD_some, hdata]
  rw [if_pos hcont, splitOnChar_append _ _ _ h1, splitOnChar_of_not_mem _ _ h2]
  simp only [hd']
  by_cases d0 : d = 0
  · simp [d0]
  · rw [if_neg d0]
    simp only [hn', pyFloatChars?_of_pyIntChars? hd', d0, if_neg d0]
    rw [if_pos d0]

/-! ### Claim C1 -/

/-- C1: the claim says `get_video_info` takes width, height, codec name and
frame rate from the FIRST video stream and the audio codec from the FIRST
audio stream, later streams not affecting the result.  False: the stream
loop overwrites on every stream of the type, so for `cexDoc` (first video
stream 1920x1080 h264, first audio stream aac) the result carries the
SECOND video stream's 1280x720 mpeg4 and the second audio stream's mp3. -/
theorem C1_counterexample :
    (get_video_info cexWorld "ffprobe" "clip.mov").1 = .ok cexResult ∧
    cexDoc.streams.head? = some cexVideoA ∧
    cexVideoA.width = some 1920 ∧ cexVideoA.codec_name = some "h264" ∧
    cexAudioA.codec_name = some "aac" ∧
    cexResult.width = some 1280 ∧ cexResult.video_codec = some "mpeg4" ∧
    cexResult.audio_codec = some "mp3" ∧
    (some (1920 : ℤ) ≠ some (1280 : ℤ)) ∧
    (some "h264" ≠ some "mpeg4") ∧ (some "aac" ≠ some "mp3") :=
  ⟨rfl, rfl, rfl, rfl, rfl, rfl, rfl, rfl, by decide, by decide, by decide⟩

/-- C1 (amended): `get_video_info` takes width, height and codec name from
the LAST video stream of the list and the audio codec name from the LAST
audio stream (each stream of a type overwrites the values of earlier ones);
fps likewise comes from the last video stream when its frame-rate field
parses as a rational with nonzero denominator.  The third part ties the
stream loop to `get_video_info` itself. -/
theorem C1_last_streams :
    (∀ (pre post : List ProbeStream) (v : ProbeStream) (info0 result : VideoInfo),
      v.codec_type = some "video" →
      (∀ s ∈ post, ¬s.codec_type = some "video") →
      scan_streams info0 (pre ++ v :: post) = .ok result →
      result.width = v.width ∧ result.height = v.height ∧
        result.video_codec = v.codec_name ∧
        (∀ (numS denS : String) (n : ℚ) (d : ℤ),
          v.r_frame_rate = some (numS ++ "/" ++ denS) →
          ('/' : Char) ∉ numS.data → ('/' : Char) ∉ denS.data →
          pyFloat? numS = some n → pyInt? denS = some d → d ≠ 0 →
          result.fps = some (pyRound2 (n / (d : ℚ))))) ∧
    (∀ (pre post : List ProbeStream) (a : ProbeStream) (info0 result : VideoInfo),
      a.codec_type = some "audio" →
      (∀ s ∈ post, ¬s.codec_type = some "audio") →
      scan_streams info0 (pre ++ a :: post) = .ok result →
      result.audio_codec = a.codec_name) ∧
    (∀ (w : World) (pp path : String) (r : ProcResult) (doc : ProbeDoc),
      w.pathExists path = true →
      w.run (pp :: videoInfoArgs path) = .ok r →
      r.returncode = 0 →
      w.decode r.stdout = some doc →
      (get_video_info w pp path).1 = scan_streams (formatInfo doc) doc.streams) := by
  refine ⟨?_, ?_, ?_⟩
  · intro pre post v info0 result hv hpost hscan
    obtain ⟨j, hj1, hj2⟩ := scan_streams_ok_append hscan
    simp only [scan_streams] at hj2
    cases hu : update_stream_info j v with
    | error e => rw [hu] at hj2; exact absurd hj2 (by simp)
    | ok i2 =>
      rw [hu] at hj2
      have hpost' := scan_no_video hpost hj2
      have hfields := update_video_fields hv hu
      refine ⟨hpost'.1.trans hfields.1, hpost'.2.1.trans hfields.2.1,
        hpost'.2.2.1.trans hfields.2.2.1, ?_⟩
      intro numS denS n d hr hc1 hc2 hn hd hd0
      have hupd := @update_video_fps j v numS denS n d hv hr hc1 hc2 hn hd
      rw [hu] at hupd
      injection hupd with hupd
      have hfps : i2.fps = if d = 0 then j.fps else some (pyRound2 (n / (d : ℚ))) := by
        rw [hupd]
      rw [hpost'.2.2.2, hfps, if_neg hd0]
  · intro pre post a info0 result ha hpost hscan
    obtain ⟨j, hj1, hj2⟩ := scan_streams_ok_append hscan
    simp only [scan_streams] at hj2
    cases hu : update_stream_info j a with
    | error e => rw [hu] at hj2; exact absurd hj2 (by simp)
    | ok i2 =>
      rw [hu] at hj2
      have h2 := scan_no_audio hpost hj2
      have h1 := update_audio_eq ha hu
      rw [h2, h1]
  · intro w pp path r doc hex hrun hrc hdec
    have hexec : execute_ffprobe_command w pp (videoInfoArgs path) true =
        (.ok r, [pp :: videoInfoArgs path]) := by
      simp [execute_ffprobe_command, subprocess_run, hrun, hrc]
    unfold get_video_info
    rw [if_pos hex, hexec]
    simp only [hdec]
    cases hscan : scan_streams (formatInfo doc) doc.streams <;> simp [hscan]

/-- C1 witness: the amended theorem applied to the four-stream document. -/
theorem C1_last_streams_witness :
    cexResult.width = cexVideoB.width ∧
    cexResult.audio_codec = cexAudioB.codec_name := by
  constructor
  · exact (C1_last_streams.1 [cexVideoA, cexAudioA] [cexAudioB] cexVideoB
      initInfo cexResult rfl (by decide) rfl).1
  · exact C1_last_streams.2.1 [cexVideoA, cexAudioA, cexVideoB] [] cexAudioB
      initInfo cexResult rfl (by simp) rfl

/-! ### Claim C2 -/

/-- C2: the claim says every reading operation (including `extract_frames`,
`create_thumbnail` and `validate_media_file`) fails with a value error on a
nonexistent input before launching.  False: in a world where
`"missing.mov"` does not exist, those three operations perform no existence
check, attempt a launch, and return normally. -/
theorem C2_counterexample :
    noFileWorld.pathExists "missing.mov" = false ∧
    extract_frames noFileWorld "ffmpeg" 4 "missing.mov" "f%04d.png" none none none =
      (.ok { returncode := 1, stdout := "", stderr := "boom" },
       [["ffmpeg", "-i", "missing.mov", "-y", "f%04d.png", "-threads", "4"]]) ∧
    create_thumbnail noFileWorld "ffmpeg" 4 "missing.mov" "t.png" "00:00:01" =
      (.ok { returncode := 1, stdout := "", stderr := "boom" },
       [["ffmpeg", "-i", "missing.mov", "-ss", "00:00:01", "-vframes", "1",
         "-y", "t.png", "-threads", "4"]]) ∧
    validate_media_file noFileWorld "ffprobe" "missing.mov" =
      (false, [["ffprobe", "-v", "error", "-show_entries", "format=duration",
                "-of", "csv=p=0", "missing.mov"]]) :=
  ⟨rfl, rfl, rfl, rfl⟩

/-- C2 (amended): of the reading operations, only `convert_video`,
`get_video_info` and `get_stream_info` check input existence and fail with
a descriptive value error with no launch attempted; `extract_frames`,
`create_thumbnail` and `validate_media_file` perform no existence check and
attempt a launch regardless. -/
theorem C2_existence_checks (w : World) (fp pp : String) (mt : Int)
    (settings : Option (String → Option String)) (path out pat toff : String)
    (prog : Bool) (vc ac : Option (Option String))
    (opts : List (String × Option String)) (stype : Option String)
    (st du fr : Option String)
    (h : w.pathExists path = false) :
    convert_video w fp mt settings path out prog vc ac opts =
      (.error (.valueError ("Input file does not exist: " ++ path)), []) ∧
    get_video_info w pp path =
      (.error (.valueError ("Video file does not exist: " ++ path)), []) ∧
    get_stream_info w pp path stype =
      (.error (.valueError ("Media file does not exist: " ++ path)), []) ∧
    (extract_frames w fp mt path pat st du fr).2 ≠ [] ∧
    (create_thumbnail w fp mt path out toff).2 ≠ [] ∧
    (validate_media_file w pp path).2 ≠ [] := by
  refine ⟨?_, ?_, ?_, ?_, ?_, ?_⟩
  · simp [convert_video, h]
  · simp [get_video_info, h]
  · simp [get_stream_info, h]
  · simp [extract_frames, execute_ffmpeg_command]
  · simp [create_thumbnail, execute_ffmpeg_command]
  · simp only [validate_media_file, execute_ffprobe_command]
    cases noFile : subprocess_run w (pp :: ["-v", "error", "-show_entries",
      "format=duration", "-of", "csv=p=0", path]) false <;> simp

/-- C2 witness: the amended theorem applied to `noFileWorld`. -/
theorem C2_existence_checks_witness :
    get_video_info noFileWorld "ffprobe" "missing.mov" =
      (.error (.valueError "Video file does not exist: missing.mov"), []) ∧
    convert_video noFileWorld "ffmpeg" 4 none "missing.mov" "o.mp4" false
        none none [] =
      (.error (.valueError "Input file does not exist: missing.mov"), []) := by
  have h := C2_existence_checks noFileWorld "ffmpeg" "ffprobe" 4 none
    "missing.mov" "o.mp4" "p%d.png" "00:00:01" false none none [] none
    none none none rfl
  exact ⟨h.2.1, h.1⟩

/-! ### Claim C3 -/

/-- C3: for every video stream whose frame-rate field is a rational string
"n/d" with integer denominator, the stream loop of `get_video_info` sets
fps to `round(n/d, 2)` when d is nonzero and leaves fps untouched (so
`None` when starting from the initial dictionary) when d is zero; it never
raises and never divides by zero. -/
theorem C3_fps_guard {info : VideoInfo} {s : ProbeStream} {numS denS : String}
    {n : ℚ} {d : ℤ}
    (hv : s.codec_type = some "video")
    (hr : s.r_frame_rate = some (numS ++ "/" ++ denS))
    (hc1 : ('/' : Char) ∉ numS.data) (hc2 : ('/' : Char) ∉ denS.data)
    (hn : pyFloat? numS = some n) (hd : pyInt? denS = some d) :
    update_stream_info info s =
      .ok { info with
            width := s.width, height := s.height,
            video_codec := s.codec_name,
            fps := if d = 0 then info.fps else some (pyRound2 (n / (d : ℚ))) } :=
  update_video_fps hv hr hc1 hc2 hn hd

/-- C3 witness: the NTSC rational `30000/1001` sets
fps = round(30000/1001, 2); the zero-denominator rational `24/0` leaves fps
unset, without raising. -/
theorem C3_fps_guard_witness :
    update_stream_info initInfo ntscStream =
      .ok { initInfo with
            width := some 1920, height := some 1080,
            video_codec := some "h264",
            fps := some (pyRound2 ((30000 : ℚ) / ((1001 : ℤ) : ℚ))) } ∧
    update_stream_info initInfo zeroDenStream =
      .ok { initInfo with
            width := some 640, height := some 480,
            video_codec := some "h264", fps := none } := by
  constructor
  · have h := @C3_fps_guard initInfo ntscStream "30000" "1001" 30000 1001
      rfl rfl (by decide) (by decide) (by decide) (by decide)
    simpa [ntscStream, initInfo] using h
  · have h := @C3_fps_guard initInfo zeroDenStream "24" "0" 24 0
      rfl rfl (by decide) (by decide) (by decide) (by decide)
    simpa [zeroDenStream, initInfo] using h

/-! ### Claim C4 -/

/-- C4: `convert_video` resolves the video/audio codec flags from an
explicit per-call override when given, else from the settings keys
`default_video_codec` / `default_audio_codec`, else from the fixed defaults
`"libx264"` / `"aac"`; a missing key or a missing provider falls back to
the fixed defaults without surfacing an error (the call proceeds to the
launch normally). -/
theorem C4_codec_resolution (w : World) (fp : String) (mt : Int)
    (i o : String) (opts : List (String × Option String))
    (hex : w.pathExists i = true) :
    (∀ (settings : Option (String → Option String)) (v a : String),
      (convert_video w fp mt settings i o false (some (some v)) (some (some a))
          opts).2 =
        [fp :: (["-i", i] ++ codec_flags "-vcodec" (some v) ++
          codec_flags "-acodec" (some a) ++ option_flags opts ++ ["-y", o]) ++
          threadFlags mt]) ∧
    (∀ (f : String → Option String) (v a : String),
      f "default_video_codec" = some v → f "default_audio_codec" = some a →
      (convert_video w fp mt (some f) i o false none none opts).2 =
        [fp :: (["-i", i] ++ codec_flags "-vcodec" (some v) ++
          codec_flags "-acodec" (some a) ++ option_flags opts ++ ["-y", o]) ++
          threadFlags mt]) ∧
    (∀ (f : String → Option String),
      f "default_video_codec" = none → f "default_audio_codec" = none →
      (convert_video w fp mt (some f) i o false none none opts).2 =
        [fp :: (["-i", i, "-vcodec", "libx264", "-acodec", "aac"] ++
          option_flags opts ++ ["-y", o]) ++ threadFlags mt]) ∧
    ((convert_video w fp mt none i o false none none opts).2 =
        [fp :: (["-i", i, "-vcodec", "libx264", "-acodec", "aac"] ++
          option_flags opts ++ ["-y", o]) ++ threadFlags mt]) := by
  refine ⟨?_, ?_, ?_, ?_⟩
  · intro settings v a
    simp [convert_video, hex, convert_video_args, execute_ffmpeg_command]
  · intro f v a hfv hfa
    simp [convert_video, hex, convert_video_args, settings_codec, hfv, hfa,
      execute_ffmpeg_command]
  · intro f hfv hfa
    simp [convert_video, hex, convert_video_args, settings_codec, hfv, hfa,
      codec_flags, execute_ffmpeg_command]
  · simp [convert_video, hex, convert_video_args, settings_codec,
      codec_flags, execute_ffmpeg_command]

/-- C4 witness: with a provider carrying both keys the looked-up codecs are
used; with no provider the fixed defaults are used. -/
theorem C4_codec_resolution_witness :
    (convert_video cexWorld "ffmpeg" 4 (some cexSettings) "a.mov" "b.mp4"
        false none none []).2 =
      [["ffmpeg", "-i", "a.mov", "-vcodec", "libx265", "-acodec", "opus",
        "-y", "b.mp4", "-threads", "4"]] ∧
    (convert_video cexWorld "ffmpeg" 4 none "a.mov" "b.mp4" false
        none none []).2 =
      [["ffmpeg", "-i", "a.mov", "-vcodec", "libx264", "-acodec", "aac",
        "-y", "b.mp4", "-threads", "4"]] := by
  have h := C4_codec_resolution cexWorld "ffmpeg" 4 "a.mov" "b.mp4" [] rfl
  exact ⟨(h.2.1 cexSettings "libx265" "opus" rfl rfl).trans rfl,
    h.2.2.2.trans rfl⟩

/-! ### Claim C5 -/

/-- C5: when the child launches and exits (with any status, e.g. 2), the
synchronous executors return the result object carrying that status and the
captured diagnostic text without raising; a launch-level failure is
re-raised to the caller unchanged (as a launch error). -/
theorem C5_executor_results (w1 w2 w3 w4 : World) (pf pp : String) (mt : Int)
    (args : List String) (r1 r2 : ProcResult) (e3 e4 : String)
    (h1 : w1.run (pf :: args ++ threadFlags mt) = .ok r1)
    (h2 : w2.run (pp :: args) = .ok r2)
    (h3 : w3.run (pf :: args ++ threadFlags mt) = .error e3)
    (h4 : w4.run (pp :: args) = .error e4) :
    (execute_ffmpeg_command w1 pf mt args false).1 = .ok r1 ∧
    (execute_ffprobe_command w2 pp args false).1 = .ok r2 ∧
    (execute_ffmpeg_command w3 pf mt args false).1 =
      .error (.launchError e3) ∧
    (execute_ffprobe_command w4 pp args false).1 =
      .error (.launchError e4) := by
  have h1' : w1.run (pf :: (args ++ threadFlags mt)) = .ok r1 := by
    simpa using h1
  have h3' : w3.run (pf :: (args ++ threadFlags mt)) = .error e3 := by
    simpa using h3
  refine ⟨?_, ?_, ?_, ?_⟩ <;>
    simp [execute_ffmpeg_command, execute_ffprobe_command, subprocess_run,
      h1', h2, h3', h4]

/-- C5 witness: a child exiting with status 2 yields a returned result with
status 2 and the diagnostic text; a spawn failure yields the re-raised
launch error. -/
theorem C5_executor_results_witness :
    (execute_ffmpeg_command status2World "ffmpeg" 4 ["-i", "a.mov"] false).1 =
      .ok { returncode := 2, stdout := "", stderr := "diag" } ∧
    (execute_ffprobe_command status2World "ffprobe" ["-i", "a.mov"] false).1 =
      .ok { returncode := 2, stdout := "", stderr := "diag" } ∧
    (execute_ffmpeg_command spawnFailWorld "ffmpeg" 4 ["-i", "a.mov"] false).1 =
      .error (.launchError "No such file or directory") ∧
    (execute_ffprobe_command spawnFailWorld "ffprobe" ["-i", "a.mov"] false).1 =
      .error (.launchError "No such file or directory") :=
  C5_executor_results status2World status2World spawnFailWorld spawnFailWorld
    "ffmpeg" "ffprobe" 4 ["-i", "a.mov"]
    { returncode := 2, stdout := "", stderr := "diag" }
    { returncode := 2, stdout := "", stderr := "diag" }
    "No such file or directory" "No such file or directory" rfl rfl rfl rfl

/-! ### Helper lemmas on the catalog parser -/

theorem sepLine_of_strip_nil {l : List Char} (h : pyStrip l = []) :
    sepLine l = false := by
  unfold sepLine
  rw [h]
  decide

theorem parseCatalogAux_section {post : List (List Char)}
    (hpost : ∀ l ∈ post, pyStrip l = [] ∨
      (¬pyStrip l = [] ∧ sepLine l = false ∧ 2 ≤ (pySplitWs l).length)) :
    parseCatalogAux post true =
      (post.filter (fun l => !(pyStrip l).isEmpty)).map secondToken := by
  induction post with
  | nil => rfl
  | cons l rest ih =>
    have ih' := ih fun t ht => hpost t (List.mem_cons_of_mem _ ht)
    rcases hpost l (List.mem_cons_self _ _) with hb | ⟨hnb, hsl, hlen⟩
    · have hsep := sepLine_of_strip_nil hb
      simp [parseCatalogAux, hsep, hb, List.filter, ih']
    · rcases hq : pySplitWs l with _ | ⟨t1, _ | ⟨t2, r2⟩⟩
      · rw [hq] at hlen; simp at hlen
      · rw [hq] at hlen; simp at hlen
      · have hne : (pyStrip l).isEmpty = false := by
          cases hps : pyStrip l with
          | nil => exact absurd hps hnb
          | cons a b => rfl
        simp [parseCatalogAux, hsl, hne, hq, List.filter, secondToken, ih']

theorem parseCatalogAux_skip {pre rest : List (List Char)} {sep : List Char}
    (hpre : ∀ l ∈ pre, sepLine l = false)
    (hsep : sepLine sep = true) :
    parseCatalogAux (pre ++ sep :: rest) false = parseCatalogAux rest true := by
  induction pre with
  | nil => simp [parseCatalogAux, hsep]
  | cons l pre' ih =>
    have hl := hpre l (List.mem_cons_self _ _)
    have ih' := ih fun t ht => hpre t (List.mem_cons_of_mem _ ht)
    simp [parseCatalogAux, hl, ih']

/-! ### Claim C6 -/

/-- C6: on a listing whose lines after the first separator row are each
blank or carry at least two whitespace-delimited tokens (and are not
themselves separator rows), the catalog parser produces exactly the second
token of every non-blank line after the separator; `get_media_formats`
returns that list as the encoder catalog, and by construction it returns a
catalog (never an exception) on every input. -/
theorem C6_catalog_parse (pre post : List (List Char)) (sep : List Char)
    (w : World) (fp : String) (mt : Int) (r1 : ProcResult)
    (hpre : ∀ l ∈ pre, sepLine l = false)
    (hsep : sepLine sep = true)
    (hpost : ∀ l ∈ post, pyStrip l = [] ∨
      (¬pyStrip l = [] ∧ sepLine l = false ∧ 2 ≤ (pySplitWs l).length))
    (hrun : w.run (fp :: ["-encoders"] ++ threadFlags mt) = .ok r1)
    (hrc : r1.returncode = 0)
    (hsplit : splitOnChar '\n' r1.stdout.data = pre ++ sep :: post) :
    parseCatalog (pre ++ sep :: post) =
      (post.filter (fun l => !(pyStrip l).isEmpty)).map secondToken ∧
    (get_media_formats w fp mt).encoders =
      (post.filter (fun l => !(pyStrip l).isEmpty)).map secondToken := by
  have hmain : parseCatalog (pre ++ sep :: post) =
      (post.filter (fun l => !(pyStrip l).isEmpty)).map secondToken :=
    (parseCatalogAux_skip hpre hsep).trans (parseCatalogAux_section hpost)
  refine ⟨hmain, ?_⟩
  have hrun' : w.run (fp :: "-encoders" :: threadFlags mt) = .ok r1 := by
    simpa using hrun
  have hexec : execute_ffmpeg_command w fp mt ["-encoders"] false =
      (.ok r1, [fp :: "-encoders" :: threadFlags mt]) := by
    simp [execute_ffmpeg_command, subprocess_run, hrun']
  unfold get_media_formats
  rw [hexec]
  rcases hdec : execute_ffmpeg_command w fp mt ["-decoders"] false with ⟨res, t⟩
  cases res <;> simp [hrc, hsplit, hmain]

/-- C6 witness: the claim theorem applied to a concrete five-line encoder
listing yields the two encoder names. -/
theorem C6_catalog_parse_witness :
    (get_media_formats catalogWorld "ffmpeg" 4).encoders =
      ["libx264".data, "aac".data] := by
  have h := C6_catalog_parse
    ["Encoders:".data, " V..... = Video".data]
    [" V..... libx264 H.264".data, " A..... aac AAC".data, []]
    (" ------".data) catalogWorld "ffmpeg" 4
    { returncode := 0, stdout := listingText, stderr := "" }
    (by decide) (by decide) (by decide) rfl rfl (by decide)
  exact h.2.trans (by decide)

/-! ### Claims C7 and C8 -/

/-- C7: the proxy builder maps `720p`/`1080p`/`480p` to
`1280x720`/`1920x1080`/`854x480`, passes any other resolution string
through unchanged as the scale target, and
`create_proxy(..., "1080p", "fast")` builds a convert call carrying the
scale filter `scale=1920x1080`, crf `28` and preset `fast`. -/
theorem C7_proxy_resolution :
    resolution_map "720p" = "1280x720" ∧
    resolution_map "1080p" = "1920x1080" ∧
    resolution_map "480p" = "854x480" ∧
    (∀ s : String, ¬s = "720p" → ¬s = "1080p" → ¬s = "480p" →
      resolution_map s = s) ∧
    (∀ (w : World) (fp : String) (mt : Int)
      (settings : Option (String → Option String)) (i o : String),
      w.pathExists i = true →
      ∃ vflags aflags,
        (create_proxy w fp mt settings i o "1080p" "fast").2 =
          [fp :: (["-i", i] ++ vflags ++ aflags ++
            ["-vf", "scale=1920x1080", "-crf", "28", "-preset", "fast",
             "-y", o]) ++ threadFlags mt]) := by
  refine ⟨rfl, rfl, rfl, ?_, ?_⟩
  · intro s h1 h2 h3
    unfold resolution_map
    rw [if_neg h1, if_neg h2, if_neg h3]
  · intro w fp mt settings i o hex
    refine ⟨codec_flags "-vcodec"
        (some (settings_codec settings "default_video_codec" "libx264")),
      codec_flags "-acodec"
        (some (settings_codec settings "default_audio_codec" "aac")), ?_⟩
    have hres : resolution_map "1080p" = "1920x1080" := rfl
    have hq : quality_map "fast" =
        { crf := "28", quality_preset := "fast" } := rfl
    simp [create_proxy, convert_video, hex, convert_video_args, hres, hq,
      option_flags, execute_ffmpeg_command]

/-- C7 witness: the mapping theorem applied to a pass-through string and
the end-to-end scenario at a concrete world. -/
theorem C7_proxy_resolution_witness :
    resolution_map "888x444" = "888x444" ∧
    (∃ vflags aflags,
      (create_proxy cexWorld "ffmpeg" 4 none "a.mov" "b.mov" "1080p"
          "fast").2 =
        [("ffmpeg" : String) :: (["-i", "a.mov"] ++ vflags ++ aflags ++
          ["-vf", "scale=1920x1080", "-crf", "28", "-preset", "fast",
           "-y", "b.mov"]) ++ threadFlags 4]) :=
  ⟨C7_proxy_resolution.2.2.2.1 "888x444" (by decide) (by decide) (by decide),
   C7_proxy_resolution.2.2.2.2 cexWorld "ffmpeg" 4 none "a.mov" "b.mov" rfl⟩

/-- C8: a quality tag outside {fast, medium, slow} makes `create_proxy`
behave exactly as the tag `medium` (crf 23, preset medium). -/
theorem C8_quality_fallback (w : World) (fp : String) (mt : Int)
    (settings : Option (String → Option String)) (i o r q : String)
    (h1 : ¬q = "fast") (h2 : ¬q = "medium") (h3 : ¬q = "slow") :
    create_proxy w fp mt settings i o r q =
      create_proxy w fp mt settings i o r "medium" ∧
    quality_map q = { crf := "23", quality_preset := "medium" } := by
  have hq : quality_map q = { crf := "23", quality_preset := "medium" } := by
    unfold quality_map
    rw [if_neg h1, if_neg h2, if_neg h3]
  constructor
  · have hm : quality_map "medium" =
        { crf := "23", quality_preset := "medium" } := rfl
    simp only [create_proxy, hq, hm]
  · exact hq

/-- C8 witness: the unknown tag `ultrafast` produces the `medium`
behaviour. -/
theorem C8_quality_fallback_witness :
    create_proxy cexWorld "ffmpeg" 4 none "a.mov" "b.mov" "720p" "ultrafast" =
      create_proxy cexWorld "ffmpeg" 4 none "a.mov" "b.mov" "720p" "medium" :=
  (C8_quality_fallback cexWorld "ffmpeg" 4 none "a.mov" "b.mov" "720p"
    "ultrafast" (by decide) (by decide) (by decide)).1

/-! ### Claim C9 -/

/-- C9: with a configured thread count > 0, the synchronous executor runs
the resolved executable, then the caller's arguments, then
`-threads <count>` appended last; the progress executor appends
`-progress pipe:2` after the thread flags; for `convert_video` the thread
flags land after the `-y` flag and the output path. -/
theorem C9_thread_flags (w : World) (fp : String) (mt : Int)
    (args : List String) (h : 0 < mt) :
    (execute_ffmpeg_command w fp mt args false).2 =
      [fp :: args ++ ["-threads", toString mt]] ∧
    (execute_ffmpeg_with_progress w fp mt args).2 =
      [fp :: args ++ ["-threads", toString mt] ++ ["-progress", "pipe:2"]] ∧
    (∀ (settings : Option (String → Option String)) (i o : String)
      (vc ac : Option (Option String)) (opts : List (String × Option String)),
      w.pathExists i = true →
      (∃ p, (convert_video w fp mt settings i o false vc ac opts).2 =
        [p ++ ["-y", o, "-threads", toString mt]]) ∧
      (∃ p2, (convert_video w fp mt settings i o true vc ac opts).2 =
        [p2 ++ ["-y", o, "-threads", toString mt, "-progress", "pipe:2"]])) := by
  have hthr : threadFlags mt = ["-threads", toString mt] := by
    unfold threadFlags
    rw [if_pos h]
  refine ⟨?_, ?_, ?_⟩
  · simp [execute_ffmpeg_command, hthr]
  · simp [execute_ffmpeg_with_progress, hthr]
  · intro settings i o vc ac opts hex
    constructor
    · refine ⟨fp :: (["-i", i] ++
        codec_flags "-vcodec" (match vc with
          | none => some (settings_codec settings "default_video_codec" "libx264")
          | some c => c) ++
        codec_flags "-acodec" (match ac with
          | none => some (settings_codec settings "default_audio_codec" "aac")
          | some c => c) ++
        option_flags opts), ?_⟩
      simp [convert_video, hex, convert_video_args, execute_ffmpeg_command, hthr]
    · refine ⟨fp :: (["-i", i] ++
        codec_flags "-vcodec" (match vc with
          | none => some (settings_codec settings "default_video_codec" "libx264")
          | some c => c) ++
        codec_flags "-acodec" (match ac with
          | none => some (settings_codec settings "default_audio_codec" "aac")
          | some c => c) ++
        option_flags opts), ?_⟩
      simp [convert_video, hex, convert_video_args,
        execute_ffmpeg_with_progress, hthr]

/-- C9 witness: thread and progress flags at a concrete invocation. -/
theorem C9_thread_flags_witness :
    (execute_ffmpeg_command cexWorld "ffmpeg" 4 ["-i", "a.mov"] false).2 =
      [["ffmpeg", "-i", "a.mov"] ++ ["-threads", toString (4 : ℤ)]] ∧
    (execute_ffmpeg_with_progress cexWorld "ffmpeg" 4 ["-i", "a.mov"]).2 =
      [["ffmpeg", "-i", "a.mov"] ++ ["-threads", toString (4 : ℤ)] ++
        ["-progress", "pipe:2"]] := by
  have h := C9_thread_flags cexWorld "ffmpeg" 4 ["-i", "a.mov"] (by decide)
  exact ⟨h.1, h.2.1⟩

/-! ### Helper lemma for C10 -/

theorem option_flags_append (l1 l2 : List (String × Option String)) :
    option_flags (l1 ++ l2) = option_flags l1 ++ option_flags l2 := by
  induction l1 with
  | nil => rfl
  | cons p rest ih =>
    rcases p with ⟨k, v⟩
    cases v <;> simp [option_flags, ih]

/-! ### Claim C10 -/

/-- C10: an option whose value is `None` contributes no flag pair wherever
it sits in the option list, and passing `vcodec=None`/`acodec=None` (or the
falsy empty string) omits the codec flag entirely instead of falling back
to the resolved default — contrast with the not-passed case, which emits
the default codec flags. -/
theorem C10_none_omits (w : World) (fp : String) (mt : Int)
    (settings : Option (String → Option String))
    (dv da i o k : String) (opts pre post : List (String × Option String))
    (hex : w.pathExists i = true) (hdv : ¬dv = "") (hda : ¬da = "") :
    (convert_video_args dv da (some none) (some none) opts i o =
      ["-i", i] ++ option_flags opts ++ ["-y", o]) ∧
    (convert_video_args dv da (some (some "")) (some (some "")) opts i o =
      ["-i", i] ++ option_flags opts ++ ["-y", o]) ∧
    (option_flags (pre ++ (k, none) :: post) = option_flags (pre ++ post)) ∧
    (convert_video_args dv da none none opts i o =
      ["-i", i, "-vcodec", dv, "-acodec", da] ++ option_flags opts ++
        ["-y", o]) ∧
    ((convert_video w fp mt settings i o false (some none) (some none)
        opts).2 =
      [fp :: (["-i", i] ++ option_flags opts ++ ["-y", o]) ++
        threadFlags mt]) := by
  refine ⟨?_, ?_, ?_, ?_, ?_⟩
  · simp [convert_video_args, codec_flags]
  · simp [convert_video_args, codec_flags]
  · rw [option_flags_append, option_flags_append]
    simp [option_flags]
  · simp [convert_video_args, codec_flags, hdv, hda]
  · simp [convert_video, hex, convert_video_args, codec_flags,
      execute_ffmpeg_command]

/-- C10 witness: a `None`-valued `crf` option and `None` codecs leave no
trace in the built command. -/
theorem C10_none_omits_witness :
    (convert_video cexWorld "ffmpeg" 4 none "a.mov" "b.mp4" false
        (some none) (some none) [("crf", none), ("preset", some "fast")]).2 =
      [("ffmpeg" : String) :: (["-i", "a.mov"] ++
        option_flags [("crf", none), ("preset", some "fast")] ++
        ["-y", "b.mp4"]) ++ threadFlags 4] ∧
    option_flags ([] ++ ("crf", (none : Option String)) ::
        [("preset", some "fast")]) =
      option_flags ([] ++ [("preset", some "fast")]) := by
  have h := C10_none_omits cexWorld "ffmpeg" 4 none "x" "y" "a.mov" "b.mp4"
    "crf" [("crf", none), ("preset", some "fast")] []
    [("preset", some "fast")] rfl (by decide) (by decide)
  exact ⟨h.2.2.2.2, h.2.2.1⟩

end FFmpegTools
